import Mathlib

/-
  Verification development for kzaksigmets.py: the KZAK SIGMET GeoJSON-to-XML
  pipeline.  The numeric core of the script converts each coordinate with
  Decimal(str(coord)) and then manipulates that arbitrary-precision decimal
  value; we therefore embed coordinates as exact decimal numbers (an integer
  mantissa scaled by a power of ten), which is precisely the set of values
  Decimal(str(coord)) can take.  All string manipulation (zfill, lstrip,
  fixed-point formatting) is embedded over lists of characters.
-/

namespace KzakSigmets

/-- An exact decimal number: the value is mant / 10 ^ exp.  This is the value
domain of Python Decimal objects produced by Decimal(str(coord)). -/
structure Dec where
  mant : ℤ
  exp : ℕ
deriving Repr, DecidableEq

/-- Python int(d) on a Decimal: truncation toward zero. -/
def Dec.trunc (d : Dec) : ℤ :=
  Int.tdiv d.mant ((10 : ℤ) ^ d.exp)

/-- Mantissa of Python d % 1 on a Decimal: the remainder keeps the sign of the
dividend and the same exponent, so its mantissa is the truncating remainder of
the mantissa by 10 ^ exp. -/
def Dec.fracMant (d : Dec) : ℤ :=
  Int.tmod d.mant ((10 : ℤ) ^ d.exp)

/-- Python d % 1 on a Decimal, as a Dec with the dividend's exponent.  (A
Python Decimal additionally carries a sign bit, so Decimal('-5.0') % 1 is the
negative zero Decimal('-0.0'); a Dec with mantissa 0 drops that sign.  The one
place the sign of a zero remainder could matter is the formatted string
'-0.000' versus '0.000', and both are stripped to '.000' by the lstrip chain
in coord_to_str, so the final output is unaffected.) -/
def Dec.mod1 (d : Dec) : Dec :=
  Dec.mk d.fracMant d.exp

/-- Left-pad a character list with the digit 0 to width w (no sign handling). -/
def pad0 (w : ℕ) (s : List Char) : List Char :=
  List.replicate (w - s.length) '0' ++ s

/-- Python str.zfill: zero-pad to width w, keeping a leading sign character
(if any) at the front; strings already at least w long are unchanged. -/
def zfillL (s : List Char) (w : ℕ) : List Char :=
  match s with
  | [] => pad0 w []
  | c :: rest =>
    if c = '-' ∨ c = '+' then c :: pad0 (w - 1) rest else pad0 w (c :: rest)

/-- Python str.lstrip(cs): drop leading characters belonging to the set cs. -/
def lstripChars (cs : List Char) : List Char → List Char
  | [] => []
  | c :: rest => if c ∈ cs then lstripChars cs rest else c :: rest

/-- Round the nonnegative fraction num / den to the nearest integer, ties to
even: the rounding used by Python Decimal fixed-point formatting
(ROUND_HALF_EVEN).  Decimal rounding is symmetric under negation, so callers
apply it to the magnitude and reattach the sign. -/
def rndHalfEven (num den : ℕ) : ℕ :=
  let f := num / den
  let r2 := 2 * (num % den)
  if r2 < den then f
  else if den < r2 then f + 1
  else if f % 2 = 0 then f else f + 1

/-- Python format spec '.3f' applied to a Decimal remainder f (a value of
magnitude at most 1, as produced by d % 1): a minus sign when f is negative,
the integer digit of the rounded magnitude, a point, and exactly three
fractional digits.  Rounding is half-even per the default Decimal context. -/
def fracFormatL (f : Dec) : List Char :=
  let n : ℕ := rndHalfEven (f.mant.natAbs * 1000) (10 ^ f.exp)
  (if f.mant < 0 then ['-'] else []) ++
    (toString (n / 1000)).toList ++ '.' :: pad0 3 (toString (n % 1000)).toList

/-- Embedding of coord_to_str(coord, int_length) from kzaksigmets.py:
truncate toward zero, subtract 360 from the integer part when it exceeds 180,
zfill the integer part to int_length, format the Decimal remainder coord % 1
to three decimals and strip it with .lstrip('0').lstrip('-0'), and prepend '+'
exactly when the adjusted integer part is strictly positive. -/
def coord_to_str (coord : Dec) (int_length : ℕ) : String :=
  let t : ℤ := coord.trunc
  let integer_part : ℤ := if 180 < t then t - 360 else t
  let integer_part_str : List Char := zfillL (toString integer_part).toList int_length
  let fractional_part : Dec := coord.mod1
  let fractional_part_str : List Char :=
    lstripChars ['-', '0'] (lstripChars ['0'] (fracFormatL fractional_part))
  let leader : List Char := if 0 < integer_part then ['+'] else []
  String.mk (leader ++ integer_part_str ++ fractional_part_str)

/-- Embedding of long_to_str: coord_to_str with field width 3. -/
def long_to_str (coord : Dec) : String :=
  coord_to_str coord 3

/-- Embedding of lat_to_str: coord_to_str with field width 2. -/
def lat_to_str (coord : Dec) : String :=
  coord_to_str coord 2

/-- The encoder as the specification describes it, for comparison with
coord_to_str: same truncation, wraparound, zero-padding and sign marker, but
the fractional suffix is stated to be the decimal point followed by exactly
the three decimal digits of the rounded remainder (the leading 0 or -0 being
stripped away). -/
def spec_coord_to_str (coord : Dec) (int_length : ℕ) : String :=
  let t : ℤ := coord.trunc
  let integer_part : ℤ := if 180 < t then t - 360 else t
  let integer_part_str : List Char := zfillL (toString integer_part).toList int_length
  let n : ℕ := rndHalfEven (coord.mod1.mant.natAbs * 1000) (10 ^ coord.mod1.exp)
  let fractional_part_str : List Char := '.' :: pad0 3 (toString (n % 1000)).toList
  let leader : List Char := if 0 < integer_part then ['+'] else []
  String.mk (leader ++ integer_part_str ++ fractional_part_str)

/-- A simplified XML element: tag, attribute list, optional text, children. -/
structure XmlElem where
  tag : String
  attrs : List (String × String)
  text : Option String
  children : List XmlElem
deriving Repr

/-- Embedding of the DEFAULT_MAP_ATTRIBUTES constant. -/
def DEFAULT_MAP_ATTRIBUTES : List (String × String) :=
  [("Type", "REST_NTZ_DAIW"),
   ("Name", "SIGMETS"),
   ("Priority", "1"),
   ("CustomColourName", "PRDArea")]

/-- Embedding of the DEFAULT_POLY_ATTRIBUTES constant. -/
def DEFAULT_POLY_ATTRIBUTES : List (String × String) :=
  [("Type", "Line")]

/-- Embedding of make_base_map_xml: a 'Maps' root with a single 'Map' child
carrying the given attributes; returns the (root, map child) pair. -/
def make_base_map_xml (map_attributes : List (String × String)) :
    XmlElem × XmlElem :=
  let m := XmlElem.mk "Map" map_attributes none []
  (XmlElem.mk "Maps" [] none [m], m)

/-- Embedding of make_poly_xml: one element whose tag is the 'Type' entry of
DEFAULT_POLY_ATTRIBUTES, with a single 'Point' child whose text is the
'/'-joined list of point strings, each the encoded latitude immediately
followed by the encoded longitude of a ring vertex given as a
(longitude, latitude) pair. -/
def make_poly_xml (sigmet_poly : List (Dec × Dec)) : XmlElem :=
  let point_strings := sigmet_poly.map (fun p => lat_to_str p.2 ++ long_to_str p.1)
  XmlElem.mk ((DEFAULT_POLY_ATTRIBUTES.lookup "Type").getD "") []
    none
    [XmlElem.mk "Point" [] (some (String.intercalate "/" point_strings)) []]

/-- An advisory feature record: the 'properties' mapping (none when the key
is absent altogether) and the rings under geometry. coordinates. -/
structure Feature where
  properties : Option (List (String × String))
  geometry_coordinates : List (List (Dec × Dec))
deriving Repr, DecidableEq

/-- The root advisory payload: the 'features' key (none when absent). -/
structure GeoJson where
  features : Option (List Feature)
deriving Repr, DecidableEq

/-- The loop body of filter_kzak_sigmets: walk the feature list carrying the
accumulated return_list; indexing feature['properties'] raises KeyError when
the key is absent, and a feature is appended exactly when its properties
contain 'firId' mapped to 'KZAK'. -/
def filterGo : List Feature → List Feature → Except String (List Feature)
  | [], acc => Except.ok acc
  | f :: rest, acc =>
    match f.properties with
    | none => Except.error "KeyError: properties"
    | some props =>
      if props.lookup "firId" = some "KZAK" then filterGo rest (acc ++ [f])
      else filterGo rest acc

/-- Embedding of filter_kzak_sigmets: indexing geojson_dict['features'] raises
KeyError when the key is absent; otherwise the loop collects the matching
features in order. -/
def filter_kzak_sigmets (geojson_dict : GeoJson) : Except String (List Feature) :=
  match geojson_dict.features with
  | none => Except.error "KeyError: features"
  | some feats => filterGo feats []

/-- The Boolean retention test used by the filter loop: the feature has a
properties mapping containing 'firId' mapped exactly to 'KZAK'. -/
def isKzak (f : Feature) : Bool :=
  match f.properties with
  | none => false
  | some props => decide (props.lookup "firId" = some "KZAK")

/-- The XML-forming stage of run(): build the base map, filter the features,
and append one poly element per ring of each retained feature, in feature
order then ring order (the order the nested for loops append them). -/
def run_transform (geojson_dict : GeoJson) : Except String XmlElem :=
  match filter_kzak_sigmets geojson_dict with
  | Except.error e => Except.error e
  | Except.ok filtered =>
    let pair := make_base_map_xml DEFAULT_MAP_ATTRIBUTES
    let polys :=
      (filtered.flatMap (fun f => f.geometry_coordinates)).map make_poly_xml
    Except.ok
      (XmlElem.mk pair.1.tag pair.1.attrs pair.1.text
        [XmlElem.mk pair.2.tag pair.2.attrs pair.2.text
          (pair.2.children ++ polys)])

/-- Outcome of one run, starting from a fetched payload: either the transform
stage fails (run reports 'could not form XML' and exits before the write
stage, so no output file is produced), or the assembled document is written. -/
inductive RunOutcome where
  | haltedTransform (msg : String)
  | wrote (doc : XmlElem)

/-- Model of run() after a successful fetch: the transform stage runs inside
a try block whose except arm reports 'could not form XML' and halts; only on
success does control reach the write stage, modelled as the wrote outcome
carrying the document. -/
def run_model (geojson_dict : GeoJson) : RunOutcome :=
  match run_transform geojson_dict with
  | Except.error _ => RunOutcome.haltedTransform "could not form XML"
  | Except.ok doc => RunOutcome.wrote doc

/-- A batch of encoder calls in sequence, returning each call's result. -/
def encodeAll (calls : List (Dec × ℕ)) : List String :=
  calls.map (fun c => coord_to_str c.1 c.2)

/-
  Helper lemmas.
-/

theorem lstripChars_cons_mem {cs : List Char} {c : Char} (h : c ∈ cs) (l : List Char) :
    lstripChars cs (c :: l) = lstripChars cs l := by
  simp only [lstripChars]
  rw [if_pos h]

theorem lstripChars_cons_nmem {cs : List Char} {c : Char} (h : c ∉ cs) (l : List Char) :
    lstripChars cs (c :: l) = c :: l := by
  simp only [lstripChars]
  rw [if_neg h]

theorem filterGo_eq (fs : List Feature) :
    ∀ acc : List Feature, (∀ f ∈ fs, f.properties ≠ none) →
      filterGo fs acc = Except.ok (acc ++ fs.filter isKzak) := by
  induction fs with
  | nil =>
    intro acc _
    simp [filterGo]
  | cons f rest ih =>
    intro acc hl
    have hrest : ∀ g ∈ rest, g.properties ≠ none := fun g hg => hl g (by simp [hg])
    match hp : f.properties with
    | none => exact absurd hp (hl f (by simp))
    | some props =>
      by_cases hk : props.lookup "firId" = some "KZAK"
      · have hkz : isKzak f = true := by simp [isKzak, hp, hk]
        simp only [filterGo, hp, if_pos hk, List.filter_cons, hkz, if_true]
        rw [ih (acc ++ [f]) hrest]
        simp
      · have hkz : isKzak f = false := by simp [isKzak, hp, hk]
        simp only [filterGo, hp, if_neg hk, List.filter_cons, hkz, Bool.false_eq_true,
          if_false]
        exact ih acc hrest

theorem run_transform_eq (g : GeoJson) (fs : List Feature)
    (h : filter_kzak_sigmets g = Except.ok fs) :
    run_transform g = Except.ok
      (XmlElem.mk "Maps" [] none
        [XmlElem.mk "Map" DEFAULT_MAP_ATTRIBUTES none
          ((fs.flatMap (fun f => f.geometry_coordinates)).map make_poly_xml)]) := by
  simp [run_transform, h, make_base_map_xml]

/-
  Claim theorems.
-/

/-- C1 (code bug): the spec requires encode(200.25, 3) to equal the encoding
of 200.25 - 360 = -159.75, namely "-159.750".  The code instead subtracts 360
only from the truncated integer part while keeping the fractional digits of
the positive input, returning "-160.250" — a different string, denoting a
different longitude, than its own encoding of -159.75.  Dec.mk 20025 2 is
Decimal('200.25') and Dec.mk (-15975) 2 is Decimal('-159.75'). -/
theorem c1_wraparound_bug :
    coord_to_str (Dec.mk 20025 2) 3 = "-160.250" ∧
    coord_to_str (Dec.mk (-15975) 2) 3 = "-159.750" ∧
    coord_to_str (Dec.mk 20025 2) 3 ≠ coord_to_str (Dec.mk (-15975) 2) 3 := by
  exact ⟨by decide, by decide, by decide⟩

/-- C2 (counterexample): for the ring [[-122.5, 37.0], [-122.0, 37.5]] the
poly element's Point child text is "+37.000-122.500/+37.500-122.000", not the
claimed "37.000-122.500/37.500-122.000": latitude 37 has a strictly positive
integer part, so lat_to_str prepends '+'. -/
theorem c2_counterexample :
    (make_poly_xml [(Dec.mk (-1225) 1, Dec.mk 370 1), (Dec.mk (-1220) 1, Dec.mk 375 1)]).children
      = [XmlElem.mk "Point" [] (some "+37.000-122.500/+37.500-122.000") []] ∧
    some "+37.000-122.500/+37.500-122.000" ≠ some "37.000-122.500/37.500-122.000" := by
  exact ⟨rfl, by decide⟩

/-- C2 (amended): for the ring [[-122.5, 37.0], [-122.0, 37.5]] the converter
produces the two point strings "+37.000-122.500" and "+37.500-122.000"
(latitude first, then longitude, no delimiter between them; each carries the
'+' marker of its positive latitude integer part), joined by "/" as the text
of the poly element's Point child. -/
theorem c2_point_strings :
    make_poly_xml [(Dec.mk (-1225) 1, Dec.mk 370 1), (Dec.mk (-1220) 1, Dec.mk 375 1)]
      = XmlElem.mk "Line" [] none
          [XmlElem.mk "Point" []
            (some ("+37.000-122.500" ++ "/" ++ "+37.500-122.000")) []] := by
  exact rfl

/-- C3 (counterexample): the claimed shape fails when the fractional
remainder rounds to magnitude 1.000.  For coord = -0.9996 and width 2 the
code formats the remainder as "-1.000" and the lstrip chain strips the bare
minus sign, giving "001.000", while the claimed shape (suffix = the decimal
point plus the three decimal digits) gives "00.000". -/
theorem c3_counterexample :
    coord_to_str (Dec.mk (-9996) 4) 2 ≠ spec_coord_to_str (Dec.mk (-9996) 4) 2 := by
  decide

/-- C3 (amended): whenever the fractional remainder rounds (half-even, three
places) to magnitude strictly below 1, the encoded string is exactly a '+'
prefix when the wraparound-adjusted integer part is strictly positive,
followed by the integer part zero-padded to the field width counting any
minus sign, followed by the decimal point and the three rounded fractional
digits. -/
theorem c3_encoder_shape (coord : Dec) (int_length : ℕ)
    (h : rndHalfEven (coord.mod1.mant.natAbs * 1000) (10 ^ coord.mod1.exp) < 1000) :
    coord_to_str coord int_length = spec_coord_to_str coord int_length := by
  simp only [coord_to_str, spec_coord_to_str, fracFormatL]
  congr 1
  simp only [List.append_assoc]
  congr 1
  congr 1
  rw [Nat.div_eq_of_lt h]
  have h0 : (toString (0 : ℕ)).toList = ['0'] := rfl
  rw [h0]
  by_cases hneg : (Dec.mod1 coord).mant < 0
  · rw [if_pos hneg]
    simp only [List.singleton_append, List.nil_append]
    rw [lstripChars_cons_nmem (by decide)]
    rw [lstripChars_cons_mem (by decide), lstripChars_cons_mem (by decide)]
    rw [lstripChars_cons_nmem (by decide)]
  · rw [if_neg hneg]
    simp only [List.singleton_append, List.nil_append]
    rw [lstripChars_cons_mem (by decide)]
    rw [lstripChars_cons_nmem (by decide)]
    rw [lstripChars_cons_nmem (by decide)]

/-- C3 witness: the amended shape at coord 45.5, width 3. -/
theorem c3_encoder_shape_witness :
    rndHalfEven ((Dec.mk 455 1).mod1.mant.natAbs * 1000) (10 ^ (Dec.mk 455 1).mod1.exp) < 1000 ∧
    coord_to_str (Dec.mk 455 1) 3 = spec_coord_to_str (Dec.mk 455 1) 3 :=
  ⟨by decide, c3_encoder_shape (Dec.mk 455 1) 3 (by decide)⟩

/-- C4 (counterexample): the vector set fails at encode(44.999, 2): the
truncated integer part 44 is strictly positive, so the code prepends '+' and
returns "+44.999", not "44.999". -/
theorem c4_counterexample :
    ¬(coord_to_str (Dec.mk 0 1) 2 = "00.000" ∧
      coord_to_str (Dec.mk (-5) 1) 2 = "00.500" ∧
      coord_to_str (Dec.mk 44999 3) 2 = "44.999" ∧
      coord_to_str (Dec.mk 455 1) 3 = "+045.500") := by
  decide

/-- C4 (amended): the encoder satisfies encode(0.0, 2) = "00.000",
encode(-0.5, 2) = "00.500" (truncation toward zero gives integer part 0, no
sign marker, and the negative-fraction sign is stripped),
encode(44.999, 2) = "+44.999" (positive integer part gets the '+' marker),
and encode(45.5, 3) = "+045.500". -/
theorem c4_test_vectors :
    coord_to_str (Dec.mk 0 1) 2 = "00.000" ∧
    coord_to_str (Dec.mk (-5) 1) 2 = "00.500" ∧
    coord_to_str (Dec.mk 44999 3) 2 = "+44.999" ∧
    coord_to_str (Dec.mk 455 1) 3 = "+045.500" := by
  exact ⟨by decide, by decide, by decide, by decide⟩

/-- C5: for every feature collection with a features sequence whose features
all carry a properties mapping, the filter returns exactly the ordered
subsequence of features whose properties contain firId mapped exactly to
"KZAK" (case-sensitive), each feature kept unmodified; features whose
properties lack firId are excluded without error. -/
theorem c5_filter_correct (fs : List Feature)
    (h : ∀ f ∈ fs, f.properties ≠ none) :
    filter_kzak_sigmets (GeoJson.mk (some fs)) = Except.ok (fs.filter isKzak) := by
  simpa [filter_kzak_sigmets] using filterGo_eq fs [] h

/-- C5 witness: the three-feature example — firId "KZAK", firId "OTHER", and
properties without firId — keeps exactly the first feature. -/
theorem c5_filter_correct_witness :
    (∀ f ∈ [Feature.mk (some [("firId", "KZAK")]) [],
            Feature.mk (some [("firId", "OTHER")]) [],
            Feature.mk (some [("hazard", "TS")]) []], f.properties ≠ none) ∧
    filter_kzak_sigmets (GeoJson.mk (some
        [Feature.mk (some [("firId", "KZAK")]) [],
         Feature.mk (some [("firId", "OTHER")]) [],
         Feature.mk (some [("hazard", "TS")]) []]))
      = Except.ok ([Feature.mk (some [("firId", "KZAK")]) [],
                    Feature.mk (some [("firId", "OTHER")]) [],
                    Feature.mk (some [("hazard", "TS")]) []].filter isKzak) ∧
    [Feature.mk (some [("firId", "KZAK")]) [],
     Feature.mk (some [("firId", "OTHER")]) [],
     Feature.mk (some [("hazard", "TS")]) []].filter isKzak
      = [Feature.mk (some [("firId", "KZAK")]) []] :=
  ⟨by decide,
   c5_filter_correct
     [Feature.mk (some [("firId", "KZAK")]) [],
      Feature.mk (some [("firId", "OTHER")]) [],
      Feature.mk (some [("hazard", "TS")]) []] (by decide),
   by decide⟩

/-- C6: whenever the filter succeeds with features fs, the assembled document
holds exactly one poly element per polygon ring of fs, in encounter order
(feature order, then ring order within a feature), none dropped, duplicated
or reordered; their number is the sum over fs of each feature's ring count. -/
theorem c6_poly_count (g : GeoJson) (fs : List Feature)
    (h : filter_kzak_sigmets g = Except.ok fs) :
    run_transform g = Except.ok
      (XmlElem.mk "Maps" [] none
        [XmlElem.mk "Map" DEFAULT_MAP_ATTRIBUTES none
          ((fs.flatMap (fun f => f.geometry_coordinates)).map make_poly_xml)]) ∧
    ((fs.flatMap (fun f => f.geometry_coordinates)).map make_poly_xml).length
      = (fs.map (fun f => f.geometry_coordinates.length)).sum := by
  refine ⟨run_transform_eq g fs h, ?_⟩
  rw [List.length_map]
  rw [List.length_flatMap]
  rfl

/-- C6 witness: two retained features with two rings and one ring give three
poly elements. -/
theorem c6_poly_count_witness :
    filter_kzak_sigmets (GeoJson.mk (some
        [Feature.mk (some [("firId", "KZAK")]) [[(Dec.mk 10 0, Dec.mk 20 0)], []],
         Feature.mk (some [("firId", "KZAK")]) [[]]]))
      = Except.ok
          [Feature.mk (some [("firId", "KZAK")]) [[(Dec.mk 10 0, Dec.mk 20 0)], []],
           Feature.mk (some [("firId", "KZAK")]) [[]]] ∧
    (run_transform (GeoJson.mk (some
        [Feature.mk (some [("firId", "KZAK")]) [[(Dec.mk 10 0, Dec.mk 20 0)], []],
         Feature.mk (some [("firId", "KZAK")]) [[]]]))
      = Except.ok
        (XmlElem.mk "Maps" [] none
          [XmlElem.mk "Map" DEFAULT_MAP_ATTRIBUTES none
            (([Feature.mk (some [("firId", "KZAK")]) [[(Dec.mk 10 0, Dec.mk 20 0)], []],
               Feature.mk (some [("firId", "KZAK")]) [[]]].flatMap
                (fun f => f.geometry_coordinates)).map make_poly_xml)]) ∧
      (([Feature.mk (some [("firId", "KZAK")]) [[(Dec.mk 10 0, Dec.mk 20 0)], []],
         Feature.mk (some [("firId", "KZAK")]) [[]]].flatMap
          (fun f => f.geometry_coordinates)).map make_poly_xml).length
        = ([Feature.mk (some [("firId", "KZAK")]) [[(Dec.mk 10 0, Dec.mk 20 0)], []],
            Feature.mk (some [("firId", "KZAK")]) [[]]].map
            (fun f => f.geometry_coordinates.length)).sum) :=
  ⟨rfl,
   c6_poly_count _
     [Feature.mk (some [("firId", "KZAK")]) [[(Dec.mk 10 0, Dec.mk 20 0)], []],
      Feature.mk (some [("firId", "KZAK")]) [[]]] rfl⟩

/-- C7: an advisory payload without the features key makes the filter raise,
the run halts reporting the transform-stage error, and no document reaches
the write stage. -/
theorem c7_missing_features_fatal (g : GeoJson) (h : g.features = none) :
    run_model g = RunOutcome.haltedTransform "could not form XML" ∧
    ∀ doc : XmlElem, run_model g ≠ RunOutcome.wrote doc := by
  have hf : filter_kzak_sigmets g = Except.error "KeyError: features" := by
    simp [filter_kzak_sigmets, h]
  have hr : run_model g = RunOutcome.haltedTransform "could not form XML" := by
    simp [run_model, run_transform, hf]
  refine ⟨hr, fun doc hw => ?_⟩
  rw [hr] at hw
  exact RunOutcome.noConfusion hw

/-- C7 witness: the payload with no features key halts with the
transform-stage report. -/
theorem c7_missing_features_fatal_witness :
    (GeoJson.mk none).features = none ∧
    run_model (GeoJson.mk none) = RunOutcome.haltedTransform "could not form XML" :=
  ⟨rfl, (c7_missing_features_fatal (GeoJson.mk none) rfl).1⟩

/-- C8: every successfully assembled document is a 'Maps' root with no
attributes and exactly one 'Map' child carrying precisely the fixed
DEFAULT_MAP_ATTRIBUTES constants, and every poly element appended under it is
the conversion of some ring: a single 'Point' child whose text is the
'/'-joined list of encoded point strings of that ring. -/
theorem c8_document_structure (g : GeoJson) (doc : XmlElem)
    (h : run_transform g = Except.ok doc) :
    doc.tag = "Maps" ∧ doc.attrs = [] ∧ doc.text = none ∧
    ∃ polys : List XmlElem,
      doc.children = [XmlElem.mk "Map" DEFAULT_MAP_ATTRIBUTES none polys] ∧
      ∀ p ∈ polys, ∃ ring : List (Dec × Dec), p = make_poly_xml ring ∧
        p.children = [XmlElem.mk "Point" []
          (some (String.intercalate "/"
            (ring.map (fun v => lat_to_str v.2 ++ long_to_str v.1)))) []] := by
  cases hf : filter_kzak_sigmets g with
  | error e =>
    simp only [run_transform, hf] at h
    exact Except.noConfusion h
  | ok fs =>
    rw [run_transform_eq g fs hf] at h
    injection h with hd
    subst hd
    refine ⟨rfl, rfl, rfl,
      (fs.flatMap (fun f => f.geometry_coordinates)).map make_poly_xml, rfl, ?_⟩
    intro p hp
    obtain ⟨ring, _, hr⟩ := List.mem_map.mp hp
    refine ⟨ring, hr.symm, ?_⟩
    rw [← hr]
    exact rfl

/-- C8 witness: the empty filtered set assembles to the fixed root and group
with no poly elements. -/
theorem c8_document_structure_witness :
    run_transform (GeoJson.mk (some []))
      = Except.ok (XmlElem.mk "Maps" [] none
          [XmlElem.mk "Map" DEFAULT_MAP_ATTRIBUTES none []]) ∧
    ((XmlElem.mk "Maps" [] none
        [XmlElem.mk "Map" DEFAULT_MAP_ATTRIBUTES none []]).tag = "Maps" ∧
     (XmlElem.mk "Maps" [] none
        [XmlElem.mk "Map" DEFAULT_MAP_ATTRIBUTES none []]).attrs = [] ∧
     (XmlElem.mk "Maps" [] none
        [XmlElem.mk "Map" DEFAULT_MAP_ATTRIBUTES none []]).text = none ∧
     ∃ polys : List XmlElem,
       (XmlElem.mk "Maps" [] none
          [XmlElem.mk "Map" DEFAULT_MAP_ATTRIBUTES none []]).children
         = [XmlElem.mk "Map" DEFAULT_MAP_ATTRIBUTES none polys] ∧
       ∀ p ∈ polys, ∃ ring : List (Dec × Dec), p = make_poly_xml ring ∧
         p.children = [XmlElem.mk "Point" []
           (some (String.intercalate "/"
             (ring.map (fun v => lat_to_str v.2 ++ long_to_str v.1)))) []]) :=
  ⟨rfl, c8_document_structure (GeoJson.mk (some []))
    (XmlElem.mk "Maps" [] none [XmlElem.mk "Map" DEFAULT_MAP_ATTRIBUTES none []]) rfl⟩

/-- C9: the encoder is a pure function of its two arguments: in any batch of
calls, each call's result is exactly coord_to_str of its own input,
independent of the calls made before or after it. -/
theorem c9_encoder_pure (pre post : List (Dec × ℕ)) (q : Dec) (w : ℕ) :
    encodeAll (pre ++ (q, w) :: post)
      = encodeAll pre ++ coord_to_str q w :: encodeAll post := by
  simp [encodeAll]

/-- C10: a feature lacking the properties key makes the filter raise a
KeyError (fatal to the transform) even though another feature matches, while
a feature that has properties without firId is silently excluded. -/
theorem c10_missing_properties_error :
    filter_kzak_sigmets (GeoJson.mk (some
        [Feature.mk (some [("firId", "KZAK")]) [], Feature.mk none []]))
      = Except.error "KeyError: properties" ∧
    filter_kzak_sigmets (GeoJson.mk (some [Feature.mk (some [("hazard", "TS")]) []]))
      = Except.ok [] := by
  exact ⟨rfl, rfl⟩

end KzakSigmets
